import Mathlib

/-!
Shallow embedding of the core of `src/main.js` (a React video-effects editor):
the GLSL fragment-shader color kernel (`fsSource`), the CPU pixel-mutation pass
of `draw2D`, the backend selector (`initWebGLSafe` / `setupGL` / the render
effect), the frame scheduler (`frame`), the visibility handler
(`handleVisibility`), and the recording/export pipeline (`startRecording`,
`stopRecording`, `recorder.onstop`).

Numbers are modelled as exact rationals (ℚ).  Two shader inputs are irrational
in general and are therefore passed in as oracle parameters: the Euclidean
distance `distance(uv, vec2(0.5))` consumed by the vignette branch (`dist`) and
the `sin`-based grain noise value (`noise`).  Every theorem below either
quantifies over these oracles or exercises a code path on which the
corresponding branch is disabled, exactly as in the cited code.
-/

namespace VideoFx

/-- A GLSL `vec3`, used both for RGB colors (x=r, y=g, z=b) and HSV triples. -/
structure Vec3 where
  x : ℚ
  y : ℚ
  z : ℚ
deriving DecidableEq

/-- A GLSL `vec4` (RGBA color when sampled from the texture). -/
structure Vec4 where
  x : ℚ
  y : ℚ
  z : ℚ
  w : ℚ
deriving DecidableEq

theorem vec3_ext {a b : Vec3} (hx : a.x = b.x) (hy : a.y = b.y) (hz : a.z = b.z) :
    a = b := by
  cases a; cases b; cases hx; cases hy; cases hz; rfl

/-- GLSL `step(edge, x)`: 0 for `x < edge`, else 1. -/
def stepq (edge v : ℚ) : ℚ := if v < edge then 0 else 1

/-- GLSL `mix(a, b, t) = a*(1-t) + b*t`. -/
def mixq (a b t : ℚ) : ℚ := a * (1 - t) + b * t

/-- Componentwise GLSL `mix` on 4-vectors (used inside `rgb2hsv`). -/
def mix4 (a b : Vec4) (t : ℚ) : Vec4 :=
  ⟨mixq a.x b.x t, mixq a.y b.y t, mixq a.z b.z t, mixq a.w b.w t⟩

/-- Componentwise GLSL `mix` on 3-vectors. -/
def mix3 (a b : Vec3) (t : ℚ) : Vec3 :=
  ⟨mixq a.x b.x t, mixq a.y b.y t, mixq a.z b.z t⟩

/-- GLSL `clamp(v, lo, hi)`. -/
def clampq (v lo hi : ℚ) : ℚ := min (max v lo) hi

/-- `clamp(c, 0.0, 1.0)` on a color, as in the shader's final line. -/
def clamp3 (c : Vec3) : Vec3 := ⟨clampq c.x 0 1, clampq c.y 0 1, clampq c.z 0 1⟩

/-- GLSL `fract(v) = v - floor(v)`. -/
def fractq (v : ℚ) : ℚ := v - ⌊v⌋

/-- GLSL built-in `smoothstep(a, b, v)` (used by the shader's vignette branch,
with edges 0.8 and 0.2 in reversed order). -/
def smoothstepGlsl (a b v : ℚ) : ℚ :=
  let t := clampq ((v - a) / (b - a)) 0 1
  t * t * (3 - 2 * t)

/-- The shader's `rgb2hsv`, transcribed from `fsSource` in `src/main.js`:
`K = vec4(0, -1/3, 2/3, -1)`;
`p = mix(vec4(c.bg, K.wz), vec4(c.gb, K.xy), step(c.b, c.g))`;
`q = mix(vec4(p.xyw, c.r), vec4(c.r, p.yzx), step(p.x, c.r))`;
`d = q.x - min(q.w, q.y)`; `e = 1e-10`;
result `(abs(q.z + (q.w - q.y)/(6d + e)), d/(q.x + e), q.x)`. -/
def rgb2hsv (c : Vec3) : Vec3 :=
  let p : Vec4 := mix4 ⟨c.z, c.y, -1, 2/3⟩ ⟨c.y, c.z, 0, -(1/3)⟩ (stepq c.z c.y)
  let q : Vec4 := mix4 ⟨p.x, p.y, p.w, c.x⟩ ⟨c.x, p.y, p.z, p.x⟩ (stepq p.x c.x)
  let d : ℚ := q.x - min q.w q.y
  let e : ℚ := 1e-10
  ⟨|q.z + (q.w - q.y) / (6 * d + e)|, d / (q.x + e), q.x⟩

/-- The shader's `hsv2rgb`:
`p = abs(fract(c.xxx + vec3(0, 1/3, 2/3)) * 6 - 3)`;
result `c.z * mix(vec3(1), clamp(p - 1, 0, 1), c.y)`. -/
def hsv2rgb (c : Vec3) : Vec3 :=
  let px : ℚ := |fractq (c.x + 0) * 6 - 3|
  let py : ℚ := |fractq (c.x + 1/3) * 6 - 3|
  let pz : ℚ := |fractq (c.x + 2/3) * 6 - 3|
  ⟨c.z * mixq 1 (clampq (px - 1) 0 1) c.y,
   c.z * mixq 1 (clampq (py - 1) 0 1) c.y,
   c.z * mixq 1 (clampq (pz - 1) 0 1) c.y⟩

/-- The shader uniforms: the current `EffectParameters` as bound by `drawWebGL`
(`u_brightness`, …, `u_chromatic`). -/
structure Params where
  brightness : ℚ
  contrast : ℚ
  saturation : ℚ
  hue : ℚ
  sepia : ℚ
  vignette : ℚ
  grain : ℚ
  chromatic : ℚ
deriving DecidableEq

/-- Default parameter values: the `useState` initial values in `src/main.js`
(brightness = contrast = saturation = 1, hue = sepia = vignette = grain =
chromatic = 0). -/
def defaultParams : Params := ⟨1, 1, 1, 0, 0, 0, 0, 0⟩

/-- Shader statement `c *= u_brightness;`. -/
def applyBrightness (b : ℚ) (c : Vec3) : Vec3 := ⟨c.x * b, c.y * b, c.z * b⟩

/-- Shader statement `c = ((c - 0.5) * max(u_contrast, 0.0)) + 0.5;`. -/
def applyContrast (k : ℚ) (c : Vec3) : Vec3 :=
  ⟨(c.x - 0.5) * max k 0 + 0.5, (c.y - 0.5) * max k 0 + 0.5, (c.z - 0.5) * max k 0 + 0.5⟩

/-- Shader statements `hsv = rgb2hsv(c); hsv.y *= u_saturation; c = hsv2rgb(hsv);`. -/
def applySaturation (s : ℚ) (c : Vec3) : Vec3 :=
  let hsv := rgb2hsv c
  hsv2rgb ⟨hsv.x, hsv.y * s, hsv.z⟩

/-- Shader statements `hsv = rgb2hsv(c); hsv.x += u_hue/360.0; c = hsv2rgb(hsv);`. -/
def applyHue (h : ℚ) (c : Vec3) : Vec3 :=
  let hsv := rgb2hsv c
  hsv2rgb ⟨hsv.x + h / 360, hsv.y, hsv.z⟩

/-- Shader `sepiaColor = vec3(dot(c, vec3(.393,.769,.189)), dot(c, vec3(.349,.686,.168)),
dot(c, vec3(.272,.534,.131)))`. -/
def sepiaColor (c : Vec3) : Vec3 :=
  ⟨0.393 * c.x + 0.769 * c.y + 0.189 * c.z,
   0.349 * c.x + 0.686 * c.y + 0.168 * c.z,
   0.272 * c.x + 0.534 * c.y + 0.131 * c.z⟩

/-- The color after the brightness, contrast, saturation and hue stages, in the
order the shader applies them (before the sepia mix). -/
def postHue (u : Params) (c : Vec3) : Vec3 :=
  applyHue u.hue (applySaturation u.saturation (applyContrast u.contrast (applyBrightness u.brightness c)))

/-- The whole fragment-shader `main()` from `fsSource`, acting on the texture
sample at `(uvx, uvy)`.  `dist` stands for `distance(uv, vec2(0.5))` and
`noise` for the grain noise `fract(sin(dot(uv*u_time, vec2(12.9898,78.233)))*43758.5453)`;
both are irrational in general and supplied as oracles.  Note that the
chromatic branch *replaces* `c` by raw texture samples, as the source does. -/
def shaderMain (u : Params) (tex : ℚ → ℚ → Vec4) (uvx uvy dist noise : ℚ) : Vec4 :=
  let color := tex uvx uvy
  let c1 := postHue u ⟨color.x, color.y, color.z⟩
  let c2 := mix3 c1 (sepiaColor c1) u.sepia
  let c3 := if 0 < u.vignette then
      let vig := smoothstepGlsl 0.8 0.2 dist
      let m := mixq 1 vig u.vignette
      (⟨c2.x * m, c2.y * m, c2.z * m⟩ : Vec3)
    else c2
  let c4 := if 0 < u.grain then
      (⟨c3.x + (noise - 0.5) * 0.25 * u.grain,
        c3.y + (noise - 0.5) * 0.25 * u.grain,
        c3.z + (noise - 0.5) * 0.25 * u.grain⟩ : Vec3)
    else c3
  let c5 := if 0 < u.chromatic then
      let off := 0.003 * u.chromatic
      (⟨(tex (uvx + off) uvy).x, (tex uvx uvy).y, (tex (uvx - off) uvy).z⟩ : Vec3)
    else c4
  ⟨clampq c5.x 0 1, clampq c5.y 0 1, clampq c5.z 0 1, color.w⟩

/-- The RGB part of an RGBA sample. -/
def rgbOf (c : Vec4) : Vec3 := ⟨c.x, c.y, c.z⟩

/-- Parameters that differ from the defaults only in `sepia`. -/
def sepiaOnly (s : ℚ) : Params := ⟨1, 1, 1, 0, s, 0, 0, 0⟩

/-! ## CPU path: the pixel-mutation pass of `draw2D` -/

/-- One canvas pixel of the `ImageData` buffer.  The source stores 8-bit
channels; channel values are modelled as exact rationals (the
`Uint8ClampedArray` integer rounding on store is not modelled; no claim
below exercises a store of a fractional value). -/
structure Pixel where
  r : ℚ
  g : ℚ
  b : ℚ
  a : ℚ
deriving DecidableEq

/-- A canvas `ImageData` image: width, height and row-major pixel data. -/
structure Img where
  w : ℕ
  h : ℕ
  data : List Pixel
deriving DecidableEq

/-- Index-aware map, used to model the pixel loops of `draw2D` (the JS loops
run over `idx = (y*w + x)*4`, i.e. pixel index `i = y*w + x`). -/
def mapWithIndex (f : ℕ → Pixel → Pixel) : ℕ → List Pixel → List Pixel
  | _, [] => []
  | i, p :: ps => f i p :: mapWithIndex f (i + 1) ps

/-- The JS helper `smoothstep(a, b, x)` defined in `src/main.js`:
`t = min(1, max(0, (x-a)/(b-a))); t*t*(3-2*t)`. -/
def smoothstep (a b v : ℚ) : ℚ :=
  let t := min 1 (max 0 ((v - a) / (b - a)))
  t * t * (3 - 2 * t)

/-- The grain loop of `draw2D`: per pixel, `n = (random() - 0.5)*255*0.12*grain`
added to r, g, b, each clamped into [0, 255]; alpha untouched.  `rnd i` is the
oracle for the i-th pixel's `Math.random()` draw. -/
def grainPass (g : ℚ) (rnd : ℕ → ℚ) (img : Img) : Img :=
  { img with data := mapWithIndex (fun i p =>
      let n := (rnd i - 0.5) * 255 * 0.12 * g
      ⟨min 255 (max 0 (p.r + n)), min 255 (max 0 (p.g + n)),
       min 255 (max 0 (p.b + n)), p.a⟩) 0 img.data }

/-- The vignette loop of `draw2D`: per pixel at `(x, y)`,
`dx = x/w - 0.5`, `dy = y/h - 0.5`, `dist = sqrt(dx*dx + dy*dy)`,
`vig = 1 - smoothstep(0.4, 0.9, dist) * vignette`, and r, g, b are scaled by
`vig`.  `sq` is a square-root oracle applied to `dx*dx + dy*dy` (the exact
square root is irrational in general). -/
def vignettePass (v : ℚ) (sq : ℚ → ℚ) (img : Img) : Img :=
  { img with data := mapWithIndex (fun i p =>
      let xc : ℚ := (i % img.w : ℕ)
      let yc : ℚ := (i / img.w : ℕ)
      let dx := xc / (img.w : ℚ) - 0.5
      let dy := yc / (img.h : ℚ) - 0.5
      let dist := sq (dx * dx + dy * dy)
      let vig := 1 - smoothstep 0.4 0.9 dist * v
      ⟨p.r * vig, p.g * vig, p.b * vig, p.a⟩) 0 img.data }

/-- The pixel-mutation block of `draw2D`: entered only when
`grain > 0 || vignette > 0 || chromatic > 0`; inside, the grain loop runs when
`grain > 0` and the vignette loop when `vignette > 0`; nothing in the block
reads `chromatic` again, exactly as in the source. -/
def draw2DPass (grain vignette chromatic : ℚ) (rnd : ℕ → ℚ) (sq : ℚ → ℚ)
    (img : Img) : Img :=
  if 0 < grain ∨ 0 < vignette ∨ 0 < chromatic then
    let i1 := if 0 < grain then grainPass grain rnd img else img
    let i2 := if 0 < vignette then vignettePass vignette sq i1 else i1
    i2
  else img

/-! ## Backend selector: `initWebGLSafe`, `createProgram`, `setupGL` -/

/-- The recoverable diagnostics emitted via `setError` on the GPU-fallback
paths of `src/main.js` (each is a non-fatal banner; rendering continues). -/
inductive Diag
  | webglUnsupported
  | shaderInitFailed
deriving DecidableEq

/-- Failure injection for GPU initialization: whether `getContext("webgl")`
yields a context, whether each shader compiles, and whether the program
links. -/
structure GLEnv where
  ctxAvailable : Bool
  compileVSOk : Bool
  compileFSOk : Bool
  linkOk : Bool
deriving DecidableEq

/-- The mutable locals and React state touched by the render effect:
`gl`, `program`, `positionBuffer`, `tex` (non-null flags), the persisted
`useWebGL` preference, the `error` banner, and whether this effect run
attempted GPU setup at all. -/
structure GLState where
  useWebGL : Bool
  glCtx : Bool
  program : Bool
  positionBuffer : Bool
  tex : Bool
  errorDiag : Option Diag
  attemptedGPU : Bool
deriving DecidableEq

/-- `initWebGLSafe`: acquire the WebGL context; on failure set the error
banner, flip `useWebGL` to false, and report failure. -/
def initWebGLSafe (env : GLEnv) (s : GLState) : GLState × Bool :=
  if env.ctxAvailable then ({ s with glCtx := true }, true)
  else ({ s with errorDiag := some Diag.webglUnsupported, useWebGL := false }, false)

/-- `createProgram` succeeds iff both shaders compile and the program links
(any failure throws, caught by `setupGL`). -/
def createProgramOk (env : GLEnv) : Bool :=
  env.compileVSOk && env.compileFSOk && env.linkOk

/-- `setupGL`: context acquisition, then shader program build (on a thrown
compile/link error: set the error banner and flip `useWebGL` to false), then
buffer and texture allocation. -/
def setupGL (env : GLEnv) (s : GLState) : GLState :=
  let r := initWebGLSafe env s
  if !r.2 then r.1
  else if !createProgramOk env then
    { r.1 with errorDiag := some Diag.shaderInitFailed, useWebGL := false }
  else { r.1 with program := true, positionBuffer := true, tex := true }

/-- One run of the render effect's initialization: `if (useWebGL) setupGL()`.
The state starts with all resource handles null, as at the top of the
effect. -/
def runRenderEffect (env : GLEnv) (useWebGL : Bool) : GLState :=
  let s0 : GLState := ⟨useWebGL, false, false, false, false, none, false⟩
  if useWebGL then { setupGL env s0 with attemptedGPU := true } else s0

/-- The rendering backend a frame dispatch uses. -/
inductive Backend
  | gpu
  | cpu
deriving DecidableEq

/-- The dispatch choice inside `frame`: `if (useWebGL && program && gl)
drawWebGL(time) else draw2D()`.  `useWebGLClosure` is the `useWebGL` value
captured by the effect closure. -/
def frameBackend (useWebGLClosure : Bool) (s : GLState) : Backend :=
  if useWebGLClosure && s.program && s.glCtx then Backend.gpu else Backend.cpu

/-! ## Frame scheduler: `frame` and `handleVisibility` -/

/-- `const targetFPS = 30`. -/
def targetFPS : ℚ := 30

/-- `const minDelta = 1000 / targetFPS`. -/
def minDelta : ℚ := 1000 / targetFPS

/-- The scheduler state: `lastFrameTimeRef.current` (initially 0, so the JS
`lastFrameTimeRef.current || 0` read is the same as reading `last`),
`isVisibleRef.current`, and the `playing` React state mirroring whether the
source video is playing. -/
structure SchedState where
  last : ℚ
  visible : Bool
  playing : Bool
deriving DecidableEq

/-- One tick of `frame(time)`.  Returns the new state, whether a rendering
dispatch was performed, and whether the next tick was scheduled
(`requestAnimationFrame(frame)`).  Note the invisible branch updates
`lastFrameTimeRef` while the throttle-skip branch does not, as in the
source. -/
def frameStep (s : SchedState) (time : ℚ) : SchedState × Bool × Bool :=
  if !s.visible then ({ s with last := time }, false, true)
  else if time - s.last < minDelta then (s, false, true)
  else ({ s with last := time }, true, true)

/-- Run a sequence of ticks, counting performed dispatches. -/
def runTicks : SchedState → List ℚ → SchedState × ℕ
  | s, [] => (s, 0)
  | s, t :: ts =>
    let r := frameStep s t
    let rest := runTicks r.1 ts
    (rest.1, (if r.2.1 then 1 else 0) + rest.2)

/-- The `visibilitychange` handler: `isVisibleRef.current = !document.hidden`,
and when hidden with the video playing, pause it and clear `playing`. -/
def handleVisibility (hidden : Bool) (s : SchedState) : SchedState :=
  let s1 := { s with visible := !hidden }
  if !s1.visible && s1.playing then { s1 with playing := false } else s1

/-! ## Capture/export pipeline: `startRecording`, `stopRecording`,
`recorder.onstop` -/

/-- The `MediaRecorder.state` values the source distinguishes
(`r.state !== "inactive"`). -/
inductive MRState
  | inactive
  | recording
deriving DecidableEq

/-- The recording/export state: the `recording` and `exporting` React flags,
`recordedChunksRef`, `mediaRecorderRef` (with its `state`), the number of
capture taps attached by `canvas.captureStream`, the published
`exportPreviewUrl`, the set of created-but-not-revoked export object URLs, and
a fresh-URL counter standing for `URL.createObjectURL`. -/
structure RecState where
  recording : Bool
  exporting : Bool
  chunks : List ℕ
  recorder : Option MRState
  taps : ℕ
  exportPreviewUrl : Option ℕ
  aliveUrls : List ℕ
  nextUrl : ℕ
deriving DecidableEq

/-- `startRecording` on its success path (canvas present, recorder supported):
clears `recordedChunksRef`, attaches a capture tap, replaces
`mediaRecorderRef` with a fresh started recorder, and (via `onstart`) sets the
`recording`/`exporting` flags.  The second component is the
`exportPreviewUrl` value captured by the `onstop` closure created here. -/
def startRecording (s : RecState) : RecState × Option ℕ :=
  ({ s with chunks := [], recorder := some MRState.recording, taps := s.taps + 1,
            recording := true, exporting := true }, s.exportPreviewUrl)

/-- `recorder.onstop`: clear the flags, build the blob from the accumulated
chunks, create a fresh object URL, revoke the previously published export URL
captured by the closure (if any), and publish the new URL. -/
def recorderOnStop (captured : Option ℕ) (s : RecState) : RecState :=
  let url := s.nextUrl
  let alive1 := url :: s.aliveUrls
  let alive2 := match captured with
    | some u => alive1.erase u
    | none => alive1
  { s with recording := false, exporting := false, recorder := some MRState.inactive,
           exportPreviewUrl := some url, aliveUrls := alive2, nextUrl := url + 1 }

/-- `stopRecording`: `const r = mediaRecorderRef.current; if (r && r.state !==
"inactive") r.stop();` — the second component records whether a stop (and hence
a later `onstop`) was requested; the state itself is untouched. -/
def stopRecording (s : RecState) : RecState × Bool :=
  match s.recorder with
  | some st => if st ≠ MRState.inactive then (s, true) else (s, false)
  | none => (s, false)

/-- One full export run: `startRecording`, then `stopRecording`, then (when a
stop was requested) the asynchronous `onstop` with the closure-captured
previous URL. -/
def exportRun (s : RecState) : RecState :=
  let r := startRecording s
  if (stopRecording r.1).2 then recorderOnStop r.2 r.1 else r.1

/-- The Start Export button is rendered only while not recording
(`{!recording && <button onClick={startRecording} …>}`). -/
def startButtonShown (s : RecState) : Bool := !s.recording

/-- A user click on the Start Export control: it can invoke `startRecording`
only when the button is rendered. -/
def uiStartClick (s : RecState) : RecState :=
  if startButtonShown s then (startRecording s).1 else s

/-- Invariant of the export-URL bookkeeping: the alive export URLs are exactly
the published one, and all alive URLs were issued before the counter. -/
def UrlInv (s : RecState) : Prop :=
  s.aliveUrls = s.exportPreviewUrl.toList ∧ ∀ u ∈ s.aliveUrls, u < s.nextUrl

/-! ## Helper lemmas about the shader kernel -/

theorem mixq_zero (a b : ℚ) : mixq a b 0 = a := by simp [mixq]

theorem mixq_one (a b : ℚ) : mixq a b 1 = b := by simp [mixq]

theorem mix3_zero (a b : Vec3) : mix3 a b 0 = a := by
  apply vec3_ext <;> simp [mix3, mixq_zero]

theorem mix3_one (a b : Vec3) : mix3 a b 1 = b := by
  apply vec3_ext <;> simp [mix3, mixq_one]

/-- On an achromatic pixel the shader's `rgb2hsv` yields hue 0, saturation 0
(the numerator `d` vanishes) and value `x`. -/
theorem rgb2hsv_gray (x : ℚ) : rgb2hsv ⟨x, x, x⟩ = ⟨0, 0, x⟩ := by
  apply vec3_ext <;> simp [rgb2hsv, mix4, mixq, stepq, lt_irrefl]

/-- `hsv2rgb` at saturation 0 is the gray pixel of the given value, whatever
the hue channel holds. -/
theorem hsv2rgb_sat0 (h v : ℚ) : hsv2rgb ⟨h, 0, v⟩ = ⟨v, v, v⟩ := by
  apply vec3_ext <;> simp [hsv2rgb, mixq]

theorem applyBrightness_one (c : Vec3) : applyBrightness 1 c = c := by
  apply vec3_ext <;> simp [applyBrightness]

theorem applyBrightness_zero (c : Vec3) : applyBrightness 0 c = ⟨0, 0, 0⟩ := by
  apply vec3_ext <;> simp [applyBrightness]

theorem applyContrast_one (c : Vec3) : applyContrast 1 c = c := by
  apply vec3_ext <;> norm_num [applyContrast]

/-- The saturation stage fixes achromatic pixels for every saturation value
(the saturation channel is 0, and `0 * s = 0`). -/
theorem applySaturation_gray (s x : ℚ) : applySaturation s ⟨x, x, x⟩ = ⟨x, x, x⟩ := by
  rw [applySaturation, rgb2hsv_gray]
  simpa using hsv2rgb_sat0 0 x

/-- The hue stage fixes achromatic pixels for every hue value. -/
theorem applyHue_gray (h x : ℚ) : applyHue h ⟨x, x, x⟩ = ⟨x, x, x⟩ := by
  rw [applyHue, rgb2hsv_gray]
  exact hsv2rgb_sat0 (0 + h / 360) x

/-- With brightness, contrast and saturation at 1 and any hue, the first four
shader stages fix achromatic pixels. -/
theorem postHue_gray (u : Params) (hb : u.brightness = 1) (hk : u.contrast = 1)
    (x : ℚ) : postHue u ⟨x, x, x⟩ = ⟨x, x, x⟩ := by
  rw [postHue, hb, hk, applyBrightness_one, applyContrast_one,
    applySaturation_gray, applyHue_gray]

/-- With the vignette, grain and chromatic branches disabled, the shader is
the clamped sepia mix of the post-hue color, with alpha passthrough. -/
theorem shaderMain_basic (u : Params) (hv : u.vignette = 0) (hg : u.grain = 0)
    (hc : u.chromatic = 0) (tex : ℚ → ℚ → Vec4) (uvx uvy dist noise : ℚ) :
    shaderMain u tex uvx uvy dist noise =
      ⟨(clamp3 (mix3 (postHue u (rgbOf (tex uvx uvy)))
          (sepiaColor (postHue u (rgbOf (tex uvx uvy)))) u.sepia)).x,
       (clamp3 (mix3 (postHue u (rgbOf (tex uvx uvy)))
          (sepiaColor (postHue u (rgbOf (tex uvx uvy)))) u.sepia)).y,
       (clamp3 (mix3 (postHue u (rgbOf (tex uvx uvy)))
          (sepiaColor (postHue u (rgbOf (tex uvx uvy)))) u.sepia)).z,
       (tex uvx uvy).w⟩ := by
  rw [shaderMain]
  simp only [hv, hg, hc, lt_irrefl, if_false, clamp3, rgbOf]

theorem clampq_of_bounds {x : ℚ} (h0 : 0 ≤ x) (h1 : x ≤ 1) : clampq x 0 1 = x := by
  rw [clampq, max_eq_left h0, min_eq_left h1]

theorem clamp3_gray {x : ℚ} (h0 : 0 ≤ x) (h1 : x ≤ 1) :
    clamp3 ⟨x, x, x⟩ = ⟨x, x, x⟩ := by
  apply vec3_ext <;> simp [clamp3, clampq_of_bounds h0 h1]

/-- With brightness 0 and contrast 1, the first four stages send every pixel
to black, whatever the saturation and hue parameters are. -/
theorem postHue_brightness0 (u : Params) (hb : u.brightness = 0)
    (hk : u.contrast = 1) (c : Vec3) : postHue u c = ⟨0, 0, 0⟩ := by
  rw [postHue, hb, hk, applyBrightness_zero, applyContrast_one,
    applySaturation_gray, applyHue_gray]

theorem sepiaColor_black : sepiaColor ⟨0, 0, 0⟩ = ⟨0, 0, 0⟩ := by
  apply vec3_ext <;> norm_num [sepiaColor]

theorem mix3_black (t : ℚ) : mix3 ⟨0, 0, 0⟩ ⟨0, 0, 0⟩ t = ⟨0, 0, 0⟩ := by
  apply vec3_ext <;> simp [mix3, mixq]

/-! ## Claim theorems -/

/-- C2, counterexample to the claim as stated: at all-default parameters the
shader kernel is *not* the exact identity on every pixel.  On pure red the
`e = 1e-10` guard in `rgb2hsv` makes the reconstructed green and blue channels
`20000000001/100000000020000000001 ≈ 2e-10` instead of 0. -/
theorem C2_identity_counterexample :
    shaderMain defaultParams (fun _ _ => ⟨1, 0, 0, 1⟩) 0 0 0 0 ≠ ⟨1, 0, 0, 1⟩ := by
  have hA : rgb2hsv ⟨1, 0, 0⟩ = ⟨0, 10000000000/10000000001, 1⟩ := by
    apply vec3_ext <;> norm_num [rgb2hsv, mix4, mixq, stepq]
  have hB : hsv2rgb ⟨0, (10000000000 : ℚ)/10000000001 * 1, 1⟩ =
      ⟨1, 1/10000000001, 1/10000000001⟩ := by
    apply vec3_ext <;> norm_num [hsv2rgb, mixq, clampq, fractq]
  have hsat : applySaturation 1 ⟨1, 0, 0⟩ = ⟨1, 1/10000000001, 1/10000000001⟩ := by
    simp only [applySaturation]
    rw [hA]
    exact hB
  have hC : rgb2hsv ⟨1, 1/10000000001, 1/10000000001⟩ =
      ⟨0, 100000000000000000000/100000000020000000001, 1⟩ := by
    apply vec3_ext <;> norm_num [rgb2hsv, mix4, mixq, stepq]
  have hD : hsv2rgb ⟨0 + (0 : ℚ)/360, 100000000000000000000/100000000020000000001, 1⟩ =
      ⟨1, 20000000001/100000000020000000001, 20000000001/100000000020000000001⟩ := by
    apply vec3_ext <;> norm_num [hsv2rgb, mixq, clampq, fractq]
  have hhue : applyHue 0 ⟨1, 1/10000000001, 1/10000000001⟩ =
      ⟨1, 20000000001/100000000020000000001, 20000000001/100000000020000000001⟩ := by
    simp only [applyHue]
    rw [hC]
    exact hD
  have hpost : postHue defaultParams ⟨1, 0, 0⟩ =
      ⟨1, 20000000001/100000000020000000001, 20000000001/100000000020000000001⟩ := by
    simp only [postHue, defaultParams]
    rw [applyBrightness_one, applyContrast_one, hsat, hhue]
  rw [shaderMain_basic defaultParams rfl rfl rfl]
  simp only [rgbOf]
  rw [hpost, show defaultParams.sepia = 0 from rfl, mix3_zero]
  norm_num [clamp3, clampq, Vec4.mk.injEq]

/-- C2, amended: at all-default parameters the kernel is the exact identity on
every achromatic pixel (alpha passed through), and the CPU pixel-mutation pass
of `draw2D` is skipped entirely, leaving the drawn frame unchanged.  (Chromatic
pixels are perturbed on the order of the `1e-10` epsilon guard of `rgb2hsv`;
see the counterexample.) -/
theorem C2_default_identity :
    (∀ (x a uvx uvy dist noise : ℚ) (tex : ℚ → ℚ → Vec4),
      tex uvx uvy = ⟨x, x, x, a⟩ → 0 ≤ x → x ≤ 1 →
      shaderMain defaultParams tex uvx uvy dist noise = ⟨x, x, x, a⟩) ∧
    (∀ (rnd : ℕ → ℚ) (sq : ℚ → ℚ) (img : Img), draw2DPass 0 0 0 rnd sq img = img) := by
  constructor
  · intro x a uvx uvy dist noise tex htex h0 h1
    rw [shaderMain_basic defaultParams rfl rfl rfl, htex]
    simp only [rgbOf]
    rw [postHue_gray defaultParams rfl rfl x, show defaultParams.sepia = 0 from rfl,
      mix3_zero, clamp3_gray h0 h1]
  · intro rnd sq img
    simp [draw2DPass, lt_irrefl]

/-- A closed instance of `C2_default_identity`, discharging its hypotheses at
the achromatic pixel 1/2 and checking the CPU pass on a one-pixel image. -/
theorem C2_default_identity_witness :
    shaderMain defaultParams (fun _ _ => ⟨1/2, 1/2, 1/2, 1⟩) 0 0 0 0 =
      ⟨1/2, 1/2, 1/2, 1⟩ ∧
    draw2DPass 0 0 0 (fun _ => 0) (fun _ => 0) ⟨1, 1, [⟨3, 5, 7, 255⟩]⟩ =
      ⟨1, 1, [⟨3, 5, 7, 255⟩]⟩ :=
  ⟨C2_default_identity.1 (1/2) 1 0 0 0 0 (fun _ _ => ⟨1/2, 1/2, 1/2, 1⟩) rfl
      (by norm_num) (by norm_num),
   C2_default_identity.2 (fun _ => 0) (fun _ => 0) ⟨1, 1, [⟨3, 5, 7, 255⟩]⟩⟩

/-- C6, counterexample to the claim as stated: with brightness = contrast =
saturation = 1, hue = 0 and sepia = 1, the kernel output is *not* the raw
sepia-matrix image of the input for every pixel — the shader clamps the result
to [0,1].  At white the matrix yields (1.351, 1.203, 0.937), but the kernel
outputs (1, 1, 0.937). -/
theorem C6_sepia_counterexample :
    rgbOf (shaderMain (sepiaOnly 1) (fun _ _ => ⟨1, 1, 1, 1⟩) 0 0 0 0) ≠
      sepiaColor ⟨1, 1, 1⟩ := by
  rw [shaderMain_basic (sepiaOnly 1) rfl rfl rfl]
  simp only [rgbOf]
  rw [postHue_gray (sepiaOnly 1) rfl rfl 1, show (sepiaOnly 1).sepia = 1 from rfl,
    mix3_one]
  norm_num [sepiaColor, clamp3, clampq, Vec3.mk.injEq]

/-- C6, amended: with brightness = contrast = saturation = 1 and hue = 0, for
every sepia factor `s` the kernel's RGB output is the clamp to [0,1] of the
linear interpolation of the post-hue color toward its fixed-matrix sepia color
by `s`; and at sepia = 1 on an achromatic pixel (which the hue stage fixes) the
output is exactly the clamped sepia matrix image of the source pixel. -/
theorem C6_sepia_formula :
    (∀ (s uvx uvy dist noise : ℚ) (tex : ℚ → ℚ → Vec4),
      rgbOf (shaderMain (sepiaOnly s) tex uvx uvy dist noise) =
        clamp3 (mix3 (postHue (sepiaOnly s) (rgbOf (tex uvx uvy)))
          (sepiaColor (postHue (sepiaOnly s) (rgbOf (tex uvx uvy)))) s)) ∧
    (∀ (x a uvx uvy dist noise : ℚ), 0 ≤ x → x ≤ 1 →
      rgbOf (shaderMain (sepiaOnly 1) (fun _ _ => ⟨x, x, x, a⟩) uvx uvy dist noise) =
        clamp3 (sepiaColor ⟨x, x, x⟩)) := by
  constructor
  · intro s uvx uvy dist noise tex
    rw [shaderMain_basic (sepiaOnly s) rfl rfl rfl]
    rfl
  · intro x a uvx uvy dist noise h0 h1
    rw [shaderMain_basic (sepiaOnly 1) rfl rfl rfl]
    simp only [rgbOf]
    rw [postHue_gray (sepiaOnly 1) rfl rfl x, show (sepiaOnly 1).sepia = 1 from rfl,
      mix3_one]

/-- A closed instance of `C6_sepia_formula`, discharging its hypotheses at the
achromatic pixel 1/2. -/
theorem C6_sepia_formula_witness :
    rgbOf (shaderMain (sepiaOnly (1/2)) (fun _ _ => ⟨1/4, 1/2, 3/4, 1⟩) 0 0 0 0) =
      clamp3 (mix3 (postHue (sepiaOnly (1/2)) (rgbOf ⟨1/4, 1/2, 3/4, 1⟩))
        (sepiaColor (postHue (sepiaOnly (1/2)) (rgbOf ⟨1/4, 1/2, 3/4, 1⟩))) (1/2)) ∧
    rgbOf (shaderMain (sepiaOnly 1) (fun _ _ => ⟨1/2, 1/2, 1/2, 1⟩) 0 0 0 0) =
      clamp3 (sepiaColor ⟨1/2, 1/2, 1/2⟩) :=
  ⟨C6_sepia_formula.1 (1/2) 0 0 0 0 (fun _ _ => ⟨1/4, 1/2, 3/4, 1⟩),
   C6_sepia_formula.2 (1/2) 1 0 0 0 0 (by norm_num) (by norm_num)⟩

/-- C7, counterexample to the claim as stated: brightness = 0 does *not* give
black regardless of the other parameters.  With contrast = 0 the contrast
stage maps black to mid-gray: the kernel outputs (1/2, 1/2, 1/2). -/
theorem C7_black_counterexample :
    rgbOf (shaderMain ⟨0, 0, 1, 0, 0, 0, 0, 0⟩ (fun _ _ => ⟨1/5, 7/10, 2/5, 1⟩) 0 0 0 0) ≠
      ⟨0, 0, 0⟩ := by
  rw [shaderMain_basic ⟨0, 0, 1, 0, 0, 0, 0, 0⟩ rfl rfl rfl]
  simp only [rgbOf]
  have h2 : applyContrast (0 : ℚ) ⟨0, 0, 0⟩ = ⟨1/2, 1/2, 1/2⟩ := by
    apply vec3_ext <;> norm_num [applyContrast]
  have hpost : postHue ⟨0, 0, 1, 0, 0, 0, 0, 0⟩ ⟨1/5, 7/10, 2/5⟩ = ⟨1/2, 1/2, 1/2⟩ := by
    show applyHue 0 (applySaturation 1 (applyContrast 0 (applyBrightness 0 ⟨1/5, 7/10, 2/5⟩))) = _
    rw [applyBrightness_zero, h2, applySaturation_gray, applyHue_gray]
  rw [hpost, mix3_zero]
  norm_num [clamp3, clampq, Vec3.mk.injEq]

/-- C7, amended: with brightness = 0 the kernel output is black with alpha
passed through, regardless of the saturation, hue, sepia and vignette
parameters — provided contrast = 1 (any contrast ≠ 1 remaps black), grain = 0
(grain adds noise to black) and chromaticShift = 0 (the chromatic branch
replaces the color with raw texture samples). -/
theorem C7_brightness_zero :
    ∀ (sat hue sep vig uvx uvy dist noise : ℚ) (tex : ℚ → ℚ → Vec4),
      shaderMain ⟨0, 1, sat, hue, sep, vig, 0, 0⟩ tex uvx uvy dist noise =
        ⟨0, 0, 0, (tex uvx uvy).w⟩ := by
  intro sat hue sep vig uvx uvy dist noise tex
  simp only [shaderMain]
  rw [postHue_brightness0 _ rfl rfl, sepiaColor_black, mix3_black]
  simp only [lt_irrefl, if_false]
  split
  · norm_num [clampq, Vec4.mk.injEq]
  · norm_num [clampq, Vec4.mk.injEq]

/-- C8: on the CPU path the pixel-mutation block never touches the image when
grain and vignette are 0, for *every* chromaticShift value — the block contains
no chromatic resampling at all (only the grain and vignette loops), even though
its entry condition tests `chromatic > 0`.  In particular the pass is a no-op
at the failing input chromaticShift = 1, and (at chromaticShift = 0) it is
skipped entirely, as the claim's second half states. -/
theorem C8_chromatic_noop :
    ∀ (c : ℚ) (rnd : ℕ → ℚ) (sq : ℚ → ℚ) (img : Img),
      draw2DPass 0 0 c rnd sq img = img := by
  intro c rnd sq img
  rw [draw2DPass]
  split
  · simp [lt_irrefl]
  · rfl

/-- C1: whenever GPU rendering is preferred but GPU initialization fails —
no WebGL context, a shader compile error, or a link error — the effect ends
with the persisted `useWebGL` preference flipped to false, a recoverable
diagnostic banner set, the frame dispatch on the CPU path (`draw2D`), and the
re-run of the effect with the flipped preference never attempting GPU setup
while still dispatching frames on the CPU path. -/
theorem C1_gpu_fallback :
    ∀ a b c d : Bool,
      (a = false ∨ createProgramOk ⟨a, b, c, d⟩ = false) →
      (runRenderEffect ⟨a, b, c, d⟩ true).useWebGL = false ∧
      (runRenderEffect ⟨a, b, c, d⟩ true).errorDiag.isSome = true ∧
      frameBackend true (runRenderEffect ⟨a, b, c, d⟩ true) = Backend.cpu ∧
      (runRenderEffect ⟨a, b, c, d⟩
        (runRenderEffect ⟨a, b, c, d⟩ true).useWebGL).attemptedGPU = false ∧
      frameBackend (runRenderEffect ⟨a, b, c, d⟩ true).useWebGL
        (runRenderEffect ⟨a, b, c, d⟩
          (runRenderEffect ⟨a, b, c, d⟩ true).useWebGL) = Backend.cpu := by
  decide

/-- A closed instance of `C1_gpu_fallback` at the failure mode "WebGL context
unavailable". -/
theorem C1_gpu_fallback_witness :
    (false = false ∨ createProgramOk ⟨false, true, true, true⟩ = false) ∧
    ((runRenderEffect ⟨false, true, true, true⟩ true).useWebGL = false ∧
      (runRenderEffect ⟨false, true, true, true⟩ true).errorDiag.isSome = true ∧
      frameBackend true (runRenderEffect ⟨false, true, true, true⟩ true) = Backend.cpu ∧
      (runRenderEffect ⟨false, true, true, true⟩
        (runRenderEffect ⟨false, true, true, true⟩ true).useWebGL).attemptedGPU = false ∧
      frameBackend (runRenderEffect ⟨false, true, true, true⟩ true).useWebGL
        (runRenderEffect ⟨false, true, true, true⟩
          (runRenderEffect ⟨false, true, true, true⟩ true).useWebGL) = Backend.cpu) :=
  ⟨Or.inl rfl, C1_gpu_fallback false true true true (Or.inl rfl)⟩

/-! ## Helper lemmas about the frame scheduler -/

theorem frameStep_fst_visible (s : SchedState) (t : ℚ) :
    (frameStep s t).1.visible = s.visible := by
  unfold frameStep
  split
  · rfl
  · split <;> rfl

theorem frameStep_fst_playing (s : SchedState) (t : ℚ) :
    (frameStep s t).1.playing = s.playing := by
  unfold frameStep
  split
  · rfl
  · split <;> rfl

theorem runTicks_playing (ts : List ℚ) :
    ∀ s : SchedState, (runTicks s ts).1.playing = s.playing := by
  induction ts with
  | nil => intro s; rfl
  | cons t ts ih =>
    intro s
    simp only [runTicks]
    rw [ih, frameStep_fst_playing]

theorem runTicks_invisible (ts : List ℚ) :
    ∀ s : SchedState, s.visible = false → (runTicks s ts).2 = 0 := by
  induction ts with
  | nil => intro s _; rfl
  | cons t ts ih =>
    intro s hv
    have h1 : frameStep s t = ({ s with last := t }, false, true) := by
      simp [frameStep, hv]
    simp only [runTicks, h1]
    simp [ih { s with last := t } hv]

/-- Each performed dispatch advances the last-frame marker by at least
`minDelta`, so after `n` dispatches the marker grew by at least `n * minDelta`. -/
theorem runTicks_last_lower (ts : List ℚ) :
    ∀ s : SchedState, s.visible = true →
      s.last + ((runTicks s ts).2 : ℚ) * minDelta ≤ (runTicks s ts).1.last := by
  induction ts with
  | nil =>
    intro s _
    simp [runTicks]
  | cons t ts ih =>
    intro s hv
    by_cases hlt : t - s.last < minDelta
    · have h1 : frameStep s t = (s, false, true) := by simp [frameStep, hv, hlt]
      simp only [runTicks, h1]
      simpa using ih s hv
    · have h1 : frameStep s t = ({ s with last := t }, true, true) := by
        simp [frameStep, hv, hlt]
      simp only [runTicks, h1]
      have h2 := ih { s with last := t } hv
      have h3 : s.last + minDelta ≤ t := by
        have := not_lt.mp hlt
        linarith
      simp only at h2
      push_cast
      linarith

theorem runTicks_last_upper (ts : List ℚ) :
    ∀ (s : SchedState) (hi : ℚ), s.visible = true → (∀ t ∈ ts, t ≤ hi) →
      (runTicks s ts).1.last ≤ max s.last hi := by
  induction ts with
  | nil =>
    intro s hi _ _
    simp [runTicks]
  | cons t ts ih =>
    intro s hi hv hmem
    have hth : t ≤ hi := hmem t (List.mem_cons_self t ts)
    have hts : ∀ u ∈ ts, u ≤ hi := fun u hu => hmem u (List.mem_cons_of_mem t hu)
    by_cases hlt : t - s.last < minDelta
    · have h1 : frameStep s t = (s, false, true) := by simp [frameStep, hv, hlt]
      simp only [runTicks, h1]
      exact ih s hi hv hts
    · have h1 : frameStep s t = ({ s with last := t }, true, true) := by
        simp [frameStep, hv, hlt]
      simp only [runTicks, h1]
      have h2 := ih { s with last := t } hi hv hts
      simp only at h2
      calc (runTicks { s with last := t } ts).1.last ≤ max t hi := h2
        _ = hi := max_eq_right hth
        _ ≤ max s.last hi := le_max_right _ _

/-- If at least one dispatch was performed over ticks all lying in `[lo, hi]`
while visible, the final marker lies in `[lo + (n-1)*minDelta, hi]`. -/
theorem runTicks_count_strong (ts : List ℚ) :
    ∀ (s : SchedState) (lo hi : ℚ), s.visible = true →
      (∀ t ∈ ts, lo ≤ t ∧ t ≤ hi) → 1 ≤ (runTicks s ts).2 →
      lo + (((runTicks s ts).2 : ℚ) - 1) * minDelta ≤ (runTicks s ts).1.last ∧
      (runTicks s ts).1.last ≤ hi := by
  induction ts with
  | nil =>
    intro s lo hi _ _ hn
    simp [runTicks] at hn
  | cons t ts ih =>
    intro s lo hi hv hmem hn
    have hth := hmem t (List.mem_cons_self t ts)
    have hts : ∀ u ∈ ts, lo ≤ u ∧ u ≤ hi := fun u hu => hmem u (List.mem_cons_of_mem t hu)
    by_cases hlt : t - s.last < minDelta
    · have h1 : frameStep s t = (s, false, true) := by simp [frameStep, hv, hlt]
      simp only [runTicks, h1, Bool.false_eq_true, if_false, Nat.zero_add] at hn ⊢
      exact ih s lo hi hv hts hn
    · have h1 : frameStep s t = ({ s with last := t }, true, true) := by
        simp [frameStep, hv, hlt]
      simp only [runTicks, h1]
      have hA := runTicks_last_lower ts { s with last := t } hv
      have hB := runTicks_last_upper ts { s with last := t } hi hv
        (fun u hu => (hts u hu).2)
      simp only at hA hB
      constructor
      · simp only [if_true]
        push_cast
        linarith [hth.1]
      · calc (runTicks { s with last := t } ts).1.last ≤ max t hi := hB
          _ = hi := max_eq_right hth.2

/-- C3: while the consumer is visible, a tick arriving less than
`1000/targetFPS` ms after the last performed frame performs no dispatch, leaves
the last-frame marker untouched and reschedules itself; and over any tick
sequence with timestamps in `[lo, hi]` run while visible, the number of
performed dispatches is at most `(hi - lo) / (1000/targetFPS) + 1`. -/
theorem C3_frame_throttle :
    (∀ (s : SchedState) (t : ℚ), s.visible = true → t - s.last < minDelta →
      frameStep s t = (s, false, true)) ∧
    (∀ (ts : List ℚ) (s : SchedState) (lo hi : ℚ), s.visible = true → lo ≤ hi →
      (∀ t ∈ ts, lo ≤ t ∧ t ≤ hi) →
      ((runTicks s ts).2 : ℚ) ≤ (hi - lo) / minDelta + 1) := by
  constructor
  · intro s t hv hlt
    simp [frameStep, hv, hlt]
  · intro ts s lo hi hv hlh hmem
    have hmd : (0 : ℚ) < minDelta := by norm_num [minDelta, targetFPS]
    rcases Nat.eq_zero_or_pos (runTicks s ts).2 with h0 | h1
    · rw [h0]
      have hdn : (0 : ℚ) ≤ (hi - lo) / minDelta := div_nonneg (by linarith) hmd.le
      push_cast
      linarith
    · obtain ⟨hl, hu⟩ := runTicks_count_strong ts s lo hi hv hmem h1
      have h2 : (((runTicks s ts).2 : ℚ) - 1) * minDelta ≤ hi - lo := by linarith
      have h3 : ((runTicks s ts).2 : ℚ) - 1 ≤ (hi - lo) / minDelta := by
        rw [le_div_iff₀ hmd]
        exact h2
      linarith

/-- A closed instance of `C3_frame_throttle`: a tick 10 ms after the marker is
skipped without touching the state, and over the tick sequence
[0, 10, 20, 40] the dispatch count respects the bound. -/
theorem C3_frame_throttle_witness :
    frameStep ⟨0, true, false⟩ 10 = (⟨0, true, false⟩, false, true) ∧
    ((runTicks ⟨0, true, false⟩ [0, 10, 20, 40]).2 : ℚ) ≤ (40 - 0) / minDelta + 1 :=
  ⟨C3_frame_throttle.1 ⟨0, true, false⟩ 10 rfl (by norm_num [minDelta, targetFPS]),
   C3_frame_throttle.2 [0, 10, 20, 40] ⟨0, true, false⟩ 0 40 rfl (by norm_num)
     (by intro t ht; fin_cases ht <;> norm_num)⟩

/-- C4: while the consumer is not visible a tick performs no dispatch but still
reschedules the next tick; over any tick sequence run while invisible zero
dispatches occur; the visibility-change handler that makes the consumer
invisible also pauses playback; and ticks never change the playback flag (so
playback stays paused across invisible ticks). -/
theorem C4_visibility_pause :
    (∀ (s : SchedState) (t : ℚ), s.visible = false →
      (frameStep s t).2.1 = false ∧ (frameStep s t).2.2 = true) ∧
    (∀ (s : SchedState) (ts : List ℚ), s.visible = false → (runTicks s ts).2 = 0) ∧
    (∀ s : SchedState, (handleVisibility true s).visible = false ∧
      (handleVisibility true s).playing = false) ∧
    (∀ (s : SchedState) (ts : List ℚ), (runTicks s ts).1.playing = s.playing) := by
  refine ⟨?_, ?_, ?_, ?_⟩
  · intro s t hv
    simp [frameStep, hv]
  · intro s ts hv
    exact runTicks_invisible ts s hv
  · intro s
    cases hp : s.playing <;> simp [handleVisibility, hp]
  · intro s ts
    exact runTicks_playing ts s

/-- A closed instance of `C4_visibility_pause` at concrete states and tick
sequences. -/
theorem C4_visibility_pause_witness :
    ((frameStep ⟨5, false, true⟩ 100).2.1 = false ∧
      (frameStep ⟨5, false, true⟩ 100).2.2 = true) ∧
    (runTicks ⟨5, false, true⟩ [1, 2, 3]).2 = 0 ∧
    ((handleVisibility true ⟨5, true, true⟩).visible = false ∧
      (handleVisibility true ⟨5, true, true⟩).playing = false) ∧
    (runTicks ⟨5, false, false⟩ [1, 2, 3]).1.playing = false :=
  ⟨C4_visibility_pause.1 ⟨5, false, true⟩ 100 rfl,
   C4_visibility_pause.2.1 ⟨5, false, true⟩ [1, 2, 3] rfl,
   C4_visibility_pause.2.2.1 ⟨5, true, true⟩,
   C4_visibility_pause.2.2.2 ⟨5, false, false⟩ [1, 2, 3]⟩

/-! ## Helper lemmas about the export pipeline -/

/-- One export run publishes exactly the fresh URL, revoking the previously
published one, and bumps the URL counter. -/
theorem exportRun_step (s : RecState) (h : UrlInv s) :
    (exportRun s).aliveUrls = [s.nextUrl] ∧
    (exportRun s).exportPreviewUrl = some s.nextUrl ∧
    (exportRun s).nextUrl = s.nextUrl + 1 := by
  obtain ⟨hlist, hbound⟩ := h
  cases hepu : s.exportPreviewUrl with
  | none =>
    refine ⟨?_, by simp [exportRun, startRecording, stopRecording, recorderOnStop],
      by simp [exportRun, startRecording, stopRecording, recorderOnStop]⟩
    simp [exportRun, startRecording, stopRecording, recorderOnStop, hepu, hlist]
  | some u =>
    have hu : u < s.nextUrl := by
      apply hbound
      rw [hlist, hepu]
      simp
    have hne : s.nextUrl ≠ u := by omega
    refine ⟨?_, by simp [exportRun, startRecording, stopRecording, recorderOnStop],
      by simp [exportRun, startRecording, stopRecording, recorderOnStop]⟩
    simp only [exportRun, startRecording, stopRecording, recorderOnStop, hepu, hlist]
    simp [List.erase_cons, hne]

/-- C5: starting from any state satisfying the export-URL invariant, two
consecutive export runs without teardown keep the invariant, leave at most one
published artifact URL alive, and the first run's published URL is revoked by
the second run's `onstop`. -/
theorem C5_artifact_release :
    ∀ s : RecState, UrlInv s →
      UrlInv (exportRun (exportRun s)) ∧
      (exportRun (exportRun s)).aliveUrls.length ≤ 1 ∧
      (∀ u : ℕ, (exportRun s).exportPreviewUrl = some u →
        u ∉ (exportRun (exportRun s)).aliveUrls) := by
  intro s h
  obtain ⟨h1, h2, h3⟩ := exportRun_step s h
  have hInv1 : UrlInv (exportRun s) := by
    constructor
    · rw [h1, h2]
      rfl
    · rw [h1, h3]
      intro u hu
      simp at hu
      omega
  obtain ⟨g1, g2, g3⟩ := exportRun_step _ hInv1
  refine ⟨⟨?_, ?_⟩, ?_, ?_⟩
  · rw [g1, g2]
    rfl
  · rw [g1, g3]
    intro u hu
    simp at hu
    omega
  · rw [g1]
    simp
  · intro u hu
    rw [h2] at hu
    have : u = s.nextUrl := (Option.some.inj hu).symm
    rw [g1, h3, this]
    simp

/-- A closed instance of `C5_artifact_release` from the initial component
state (no recorder, nothing published). -/
theorem C5_artifact_release_witness :
    UrlInv ⟨false, false, [], none, 0, none, [], 0⟩ ∧
    (UrlInv (exportRun (exportRun ⟨false, false, [], none, 0, none, [], 0⟩)) ∧
      (exportRun (exportRun ⟨false, false, [], none, 0, none, [], 0⟩)).aliveUrls.length ≤ 1 ∧
      (∀ u : ℕ, (exportRun ⟨false, false, [], none, 0, none, [], 0⟩).exportPreviewUrl = some u →
        u ∉ (exportRun (exportRun ⟨false, false, [], none, 0, none, [], 0⟩)).aliveUrls)) :=
  ⟨⟨rfl, by simp⟩, C5_artifact_release ⟨false, false, [], none, 0, none, [], 0⟩ ⟨rfl, by simp⟩⟩

/-- A concrete state in which a recording session is already active. -/
def recActive : RecState := ⟨true, true, [5], some MRState.recording, 1, none, [], 0⟩

/-- C9, counterexample to the claim as stated: invoking the `startRecording`
function itself while a session is already Recording is *not* a no-op and is
not rejected — it attaches a second capture tap (and clears the accumulated
chunks). -/
theorem C9_start_counterexample :
    (startRecording recActive).1 ≠ recActive ∧
    (startRecording recActive).1.taps = 2 ∧
    (startRecording recActive).1.chunks = [] := by
  refine ⟨?_, rfl, rfl⟩
  intro h
  have : (startRecording recActive).1.chunks = recActive.chunks := by rw [h]
  simp [startRecording, recActive] at this

/-- C9, amended: a start issued through the control surface while Recording is
a no-op, because the Start Export control is only rendered while not recording;
the `startRecording` function itself performs no such guard. -/
theorem C9_ui_start_noop :
    ∀ s : RecState, s.recording = true →
      uiStartClick s = s ∧ (uiStartClick s).taps = s.taps := by
  intro s h
  have : uiStartClick s = s := by
    simp [uiStartClick, startButtonShown, h]
  exact ⟨this, by rw [this]⟩

/-- A closed instance of `C9_ui_start_noop` at a concrete recording state. -/
theorem C9_ui_start_noop_witness :
    uiStartClick recActive = recActive ∧ (uiStartClick recActive).taps = recActive.taps :=
  C9_ui_start_noop recActive rfl

/-- C10: invoking `stopRecording` when no recorder exists or the recorder is
already inactive is a no-op: no stop is requested (so no `onstop` ever fires),
nothing is thrown, and the state — recording flags, chunks, published
artifact — is unchanged. -/
theorem C10_stop_noop :
    ∀ s : RecState, (s.recorder = none ∨ s.recorder = some MRState.inactive) →
      stopRecording s = (s, false) := by
  intro s h
  rcases h with h | h <;> simp [stopRecording, h]

/-- A closed instance of `C10_stop_noop` at the initial component state. -/
theorem C10_stop_noop_witness :
    stopRecording ⟨false, false, [], none, 0, none, [], 0⟩ =
      (⟨false, false, [], none, 0, none, [], 0⟩, false) :=
  C10_stop_noop ⟨false, false, [], none, 0, none, [], 0⟩ (Or.inl rfl)

end VideoFx
